import Mathlib

/-!
Shallow embedding of the resilient document-acquisition core of the
gov-pdf-download scraper corpus, together with theorems checking the
specification's claims against it.

Each definition is translated from one concrete source function, named in
its doc comment.  Byte blobs are `List Nat` (one entry per byte), URLs and
file paths are `String`, and the effectful collaborators (Playwright,
curl, the HTTP session, the filesystem, the JSON parser) enter as explicit
oracle arguments, so that every run of a modelled function is a pure value
that records its outcome, the strategy attempts it made, the sleeps it
performed and the tracking-store writes it issued.
-/

namespace GovPdf

/-! ## Validator (gao-scrape.py) -/

/-- The 4 magic bytes `%PDF` (0x25 0x50 0x44 0x46) compared by
`gao-scrape.py, is_valid_pdf` against the first 4 bytes of the file. -/
def pdfMagic : List Nat := [37, 80, 68, 70]

/-- `gao-scrape.py, is_valid_pdf` (lines 37-44): read the first 4 bytes of
the file and compare them with the literal `b'%PDF'`.  No size check is
performed here. -/
def is_valid_pdf (content : List Nat) : Bool :=
  content.take 4 == pdfMagic

/-- The acceptance test of `gao-scrape.py, download_via_fetch`
(lines 136-140): the freshly written file must pass `is_valid_pdf` and its
size must exceed 1000 bytes; otherwise the file is deleted and the method
reports failure. -/
def gaoFetchAccept (content : List Nat) : Bool :=
  is_valid_pdf content && decide (1000 < content.length)

/-- A blob of `n` bytes that starts with the `%PDF` signature
(padded with zero bytes). -/
def pdfBlob (n : Nat) : List Nat :=
  pdfMagic ++ List.replicate (n - 4) 0

/-! ## Tracking store load (va-scrape.py / usmc-scrape.py) -/

/-- `va-scrape.py, _load_tracking` (lines 57-65) = `usmc-scrape.py,
_load_tracking` (lines 41-49): if the tracking file does not exist return
the empty dict; if it exists, `json.load` it, and on any exception return
the empty dict.  `contents` is the file (none = absent) and `parseJson`
the JSON parser (none = raises). -/
def vaLoadTracking (contents : Option String)
    (parseJson : String → Option (List (String × Bool))) :
    List (String × Bool) :=
  match contents with
  | none => []
  | some s =>
    match parseJson s with
    | some t => t
    | none => []

/-! ## Filename derivation (va-scrape.py) -/

/-- ASCII reading of Python's regex class `[\w\-\.]` used in
`va-scrape.py, generate_filename`: word characters, dash and dot. -/
def vaKeptChar (c : Char) : Bool :=
  c.isAlphanum || c == '_' || c == '-' || c == '.'

/-- The substitution `re.sub(r'[^\w\-\.]', '_', filename)` of
`va-scrape.py, generate_filename`. -/
def vaSanitize (s : String) : String :=
  String.mk (s.data.map (fun c => if vaKeptChar c then c else '_'))

/-- The `filename` / `category` / `url` fields of the `pdf_info` dict that
`va-scrape.py` passes to `download_single_pdf`. -/
structure PdfInfo where
  url : String
  filename : String
  category : String
deriving DecidableEq

/-- `va-scrape.py, generate_filename` (lines 232-241): sanitize the
`filename` field and append `.pdf` unless the lowercased name already ends
with it.  It reads no other field of `pdf_info`. -/
def vaGenerateFilename (info : PdfInfo) : String :=
  let f := vaSanitize info.filename
  if f.toLower.endsWith ".pdf" then f else f ++ ".pdf"

/-- The output path derived in `va-scrape.py, download_single_pdf`
(lines 477-482): the category subdirectory joined with the generated
filename (relative to the output directory). -/
def vaFilepath (info : PdfInfo) : String :=
  info.category ++ "/" ++ vaGenerateFilename info

/-! ## va-scrape.py download_single_pdf -/

/-- Observable events of one `download_single_pdf` run: a
`download_with_playwright` attempt in a given round, a curl attempt in a
given round, or a sleep of a given number of seconds. -/
inductive VaEvent
  | pwAttempt (round : Nat)
  | curlAttempt (round : Nat)
  | sleepEv (seconds : Nat)
deriving DecidableEq

/-- Result of one `download_single_pdf` run: the returned boolean, the
ordered event trace, and the `success` flags written to the tracking
store for this URL (in order). -/
structure VaRun where
  ret : Bool
  events : List VaEvent
  saves : List Bool
deriving DecidableEq

/-- `max_retries = 3` in `va-scrape.py, download_single_pdf` line 491. -/
def vaMaxRetries : Nat := 3

/-- The retry loop of `va-scrape.py, download_single_pdf` (lines 492-525)
over the list of remaining round indices.  Per round: try
`download_with_playwright` (oracle `pw`); on success record success and
return True.  Only when the round is the last one (`retry ==
max_retries - 1`), additionally try curl (oracle `curl`); on success
record success and return True.  A failed round sleeps 3 seconds.  After
the loop, record failure and return False. -/
def vaRetryLoop (pw : Nat → Bool) (curl : Bool) : List Nat → VaRun
  | [] => ⟨false, [], [false]⟩
  | r :: rest =>
    if pw r then ⟨true, [.pwAttempt r], [true]⟩
    else if r = vaMaxRetries - 1 then
      if curl then ⟨true, [.pwAttempt r, .curlAttempt r], [true]⟩
      else
        let k := vaRetryLoop pw curl rest
        ⟨k.ret, .pwAttempt r :: .curlAttempt r :: .sleepEv 3 :: k.events, k.saves⟩
    else
      let k := vaRetryLoop pw curl rest
      ⟨k.ret, .pwAttempt r :: .sleepEv 3 :: k.events, k.saves⟩

/-- `va-scrape.py, download_single_pdf` (lines 464-525).
`tracking url = some b` models a tracking record with success flag `b`;
`fileSize path = some n` models an existing file of `n` bytes at `path`.
Control flow exactly as in the source: (1) if a record exists with
`success` true, return True at once (lines 469-472) — the record alone is
consulted, never the disk; (2) if the file at the derived path exists
with size above 1000, record success and return True (lines 485-488);
(3) otherwise run the retry loop over rounds `0, 1, 2`. -/
def vaDownloadSinglePdf (tracking : String → Option Bool)
    (fileSize : String → Option Nat) (pw : Nat → Bool) (curl : Bool)
    (info : PdfInfo) : VaRun :=
  if tracking info.url = some true then ⟨true, [], []⟩
  else
    match fileSize (vaFilepath info) with
    | some sz =>
      if 1000 < sz then ⟨true, [], [true]⟩
      else vaRetryLoop pw curl (List.range vaMaxRetries)
    | none => vaRetryLoop pw curl (List.range vaMaxRetries)

/-! ## gao-scrape.py download_pdf_properly and its three methods -/

/-- The three download methods of `gao-scrape.py, download_pdf_properly`,
in source order: the in-page `fetch` method (`download_via_fetch`), route
interception (`download_with_route`) and response capture
(`download_via_response`). -/
inductive GaoMethod
  | fetchMethod
  | routeMethod
  | responseMethod
deriving DecidableEq

/-- Result of one `download_pdf_properly` run: the returned boolean and
the methods actually entered, in order. -/
structure GaoRun where
  ret : Bool
  methodsTried : List GaoMethod
deriving DecidableEq

/-- `gao-scrape.py, download_via_fetch` (lines 80-149).  The oracle
`resp` is the browser-side `fetch`: `none` when the response is not ok or
the page evaluation throws (the in-browser `catch` turns both into a
failure object), `some bytes` for a delivered body.  The whole Python
body sits inside one `try` whose `except` returns `False`, so the
function always returns a boolean and never raises — hence the `Except`
value is `.ok` in every branch. -/
def downloadViaFetch (resp : Option (List Nat)) : Except String Bool :=
  match resp with
  | none => .ok false
  | some content => if gaoFetchAccept content then .ok true else .ok false

/-- `gao-scrape.py, download_with_route` (lines 151-211): same shape, the
body is one `try` returning booleans with a blanket `except` returning
`False`, so it also always returns `.ok`. -/
def downloadWithRoute (resp : Option (List Nat)) : Except String Bool :=
  match resp with
  | none => .ok false
  | some content => if gaoFetchAccept content then .ok true else .ok false

/-- `gao-scrape.py, download_via_response` (lines 213-251): identical
exception structure, always `.ok`. -/
def downloadViaResponse (resp : Option (List Nat)) : Except String Bool :=
  match resp with
  | none => .ok false
  | some content => if gaoFetchAccept content then .ok true else .ok false

/-- `gao-scrape.py, download_pdf_properly` (lines 46-78).  Method 1 is
run as `return await download_via_fetch(...)` inside a `try`: whatever
boolean it returns is returned directly, and method 2 runs only if
method 1 raises (the `except` branch); likewise method 3 runs only if
method 2 raises, and `False` is returned if method 3 raises too. -/
def downloadPdfProperly (fetchResp routeResp respResp : Option (List Nat)) :
    GaoRun :=
  match downloadViaFetch fetchResp with
  | .ok b => ⟨b, [.fetchMethod]⟩
  | .error _ =>
    match downloadWithRoute routeResp with
    | .ok b => ⟨b, [.fetchMethod, .routeMethod]⟩
    | .error _ =>
      match downloadViaResponse respResp with
      | .ok b => ⟨b, [.fetchMethod, .routeMethod, .responseMethod]⟩
      | .error _ => ⟨false, [.fetchMethod, .routeMethod, .responseMethod]⟩

/-! ## doe-scrape.py download_document -/

/-- Observable events of one `doe-scrape.py, download_document` run:
an HTTP request attempt, or a sleep of a given number of seconds. -/
inductive DoeEvent
  | request (attempt : Nat)
  | sleepEv (seconds : Nat)
deriving DecidableEq

/-- Result of one `download_document` run: the returned boolean, the
event trace, and the successive contents observed at the final artifact
path `filepath` (`none` = no file at that path). -/
structure DoeRun where
  ret : Bool
  events : List DoeEvent
  fileHistory : List (Option (List Nat))
deriving DecidableEq

/-- The sequence of contents at the final artifact path produced by the
write loop of `doe-scrape.py, download_document` (lines 167-170):
`open(filepath, 'wb')` truncates the file at the *final* path, then each
response chunk is appended in turn, so after `i` chunks the file holds
the concatenation of the first `i` chunks. -/
def doeWriteStates (chunks : List (List Nat)) : List (Option (List Nat)) :=
  (List.range (chunks.length + 1)).map (fun i => some ((chunks.take i).flatten))

/-- `max_retries = 3` in `doe-scrape.py, download_document` line 153. -/
def doeMaxRetries : Nat := 3

/-- The retry loop of `doe-scrape.py, download_document` (lines 154-199)
over the remaining attempt numbers (`1, 2, 3`).  `resp a = some chunks`
models a successful streamed response on attempt `a`; `none` models a
`requests.exceptions.RequestException` raised before any byte is
written.  On success the chunks are written directly to the final path
and True is returned; on failure the code sleeps `2 ** attempt` seconds
when `attempt < max_retries`, and on the last attempt deletes any
partial file and returns False. -/
def doeAttemptLoop (resp : Nat → Option (List (List Nat))) :
    List Nat → DoeRun
  | [] => ⟨false, [], []⟩
  | a :: rest =>
    match resp a with
    | some chunks => ⟨true, [.request a], doeWriteStates chunks⟩
    | none =>
      if a < doeMaxRetries then
        let k := doeAttemptLoop resp rest
        ⟨k.ret, .request a :: .sleepEv (2 ^ a) :: k.events, k.fileHistory⟩
      else ⟨false, [.request a], [none]⟩

/-- `doe-scrape.py, download_document` (lines 119-201): if a file already
exists at the derived path, return True immediately (line 148-150, no
validity check); otherwise run the retry loop over attempts `1, 2, 3`. -/
def doeDownloadDocument (fileAtPath : Option (List Nat))
    (resp : Nat → Option (List (List Nat))) : DoeRun :=
  match fileAtPath with
  | some _ => ⟨true, [], []⟩
  | none => doeAttemptLoop resp [1, 2, 3]

/-! ## dha-scrape.py download_file_direct -/

/-- The characters `<>:"/\|?*` replaced by `_` in
`dha-scrape.py, sanitize_filename` (lines 53-62). -/
def dhaInvalidChar (c : Char) : Bool :=
  c == '<' || c == '>' || c == ':' || c == '"' || c == '/' ||
  c == '\\' || c == '|' || c == '?' || c == '*'

/-- Python `str.split()` with no argument: split on whitespace runs,
dropping empty pieces.  The second argument accumulates the current word
in reverse. -/
def pyWords : List Char → List Char → List String
  | [], acc => if acc.isEmpty then [] else [String.mk acc.reverse]
  | ch :: cs, acc =>
    if ch.isWhitespace then
      if acc.isEmpty then pyWords cs []
      else String.mk acc.reverse :: pyWords cs []
    else pyWords cs (ch :: acc)

/-- `dha-scrape.py, sanitize_filename`: replace every invalid character
with `_`, collapse whitespace runs into single spaces dropping leading
and trailing whitespace (`' '.join(filename.split())`), and truncate to
150 characters. -/
def dhaSanitizeFilename (s : String) : String :=
  let replaced := s.data.map (fun c => if dhaInvalidChar c then '_' else c)
  let joined := String.intercalate " " (pyWords replaced [])
  String.mk (joined.data.take 150)

/-- The duplicate-handling `while` loop of
`dha-scrape.py, download_file_direct` (lines 163-168): starting from the
original path and `counter = 1`, as long as the current candidate path
exists, move to `{stem}_{counter}{ext}` and increment the counter.  The
source loop is unbounded; it terminates because only finitely many paths
exist, and `fs.length + 1` fuel is enough by pigeonhole (each probed name
is distinct), so the fuel-indexed recursion computes the same result. -/
def dhaCounterLoop (fs : List String) (stem ext : String) :
    Nat → String → Nat → String × Nat
  | 0, path, c => (path, c)
  | fuel + 1, path, c =>
    if fs.contains path then
      dhaCounterLoop fs stem ext fuel (stem ++ "_" ++ toString c ++ ext) (c + 1)
    else (path, c)

/-- Result of one `download_file_direct` path resolution: whether the
skip branch fired, and the path the bytes are written to. -/
structure DhaResult where
  skipped : Bool
  path : String
deriving DecidableEq

/-- `dha-scrape.py, download_file_direct` (lines 154-175): derive the
filename from the sanitized title plus extension, bump it with `_N`
counters while the path exists (`os.path.splitext` recovers the stem and
extension since the extension holds the final dot), then skip only when
`os.path.exists(original_filepath) and counter == 1` — otherwise download
to the resolved path.  `fs` is the set of existing paths in the output
folder. -/
def dhaDownloadFileDirect (fs : List String) (title ext : String) :
    DhaResult :=
  let stem := dhaSanitizeFilename title
  let original := stem ++ ext
  let res := dhaCounterLoop fs stem ext (fs.length + 1) original 1
  if fs.contains original ∧ res.2 = 1 then ⟨true, res.1⟩
  else ⟨false, res.1⟩

/-! ## dol-scrape.py run (pagination) -/

/-- Result of one `dol-scrape.py, run` crawl: the listing page numbers
processed and the advisory links handed on, in order. -/
structure DolRun where
  pages : List Nat
  advisories : List String
deriving DecidableEq

/-- `dol-scrape.py, run` (lines 223-293): `for page_num in
range(start_page, end_page + 1)` visits each listing page in turn,
extracts its advisory links (oracle `extract`) and processes them.  The
loop bound is the configured page range; nothing the extractor returns
feeds back into it. -/
def dolRun (extract : Nat → List String) (startPage endPage : Nat) :
    DolRun :=
  let pages := List.range' startPage (endPage + 1 - startPage)
  ⟨pages, pages.flatMap extract⟩

/-! ## web-scrape.py scrape (breadth-first crawl with a depth cap) -/

/-- `web-scrape.py, scrape` (lines 265-329), over a site of `n` pages
(`Fin n`).  The queue holds `(url, depth)` pairs; a popped pair is
skipped when the URL was already visited or its depth exceeds
`maxDepth`; otherwise the page is processed (it joins the output list and
the visited set), and when extraction succeeds (`content u`) and `depth <
max_depth`, the page's links not yet visited (oracle `getLinks`, the
injected extractor) are enqueued at `depth + 1`.  The returned list is
the pages processed, with their depths, in processing order. -/
def webScrapeAux (n : Nat) (getLinks : Fin n → List (Fin n))
    (content : Fin n → Bool) (maxDepth : Nat) :
    Finset (Fin n) → List (Fin n × Nat) → List (Fin n × Nat)
  | _, [] => []
  | visited, (u, d) :: rest =>
    if h : u ∈ visited ∨ maxDepth < d then
      webScrapeAux n getLinks content maxDepth visited rest
    else
      let next :=
        if content u ∧ d < maxDepth then
          (((getLinks u).filter (fun l => l ∉ visited)).map (fun l => (l, d + 1)))
        else []
      (u, d) :: webScrapeAux n getLinks content maxDepth (insert u visited)
        (rest ++ next)
termination_by visited queue => (n - visited.card, queue.length)
decreasing_by
· exact Prod.Lex.right _ (Nat.lt_succ_self _)
· apply Prod.Lex.left
  have hu : u ∉ visited := fun hmem => h (Or.inl hmem)
  have hcard : (insert u visited).card = visited.card + 1 :=
    Finset.card_insert_of_not_mem hu
  have hle : (insert u visited).card ≤ n := by
    have := Finset.card_le_univ (insert u visited)
    simpa using this
  omega

/-- `web-scrape.py, scrape`: start from the seed at depth 0 with nothing
visited. -/
def webScrape (n : Nat) (getLinks : Fin n → List (Fin n))
    (content : Fin n → Bool) (maxDepth : Nat) (seed : Fin n) :
    List (Fin n × Nat) :=
  webScrapeAux n getLinks content maxDepth ∅ [(seed, 0)]

/-- Projection of the sleeps out of a `va-scrape.py` event trace. -/
def vaSleepSeconds : VaEvent → Option Nat
  | .sleepEv s => some s
  | _ => none

/-- Projection of the sleeps out of a `doe-scrape.py` event trace. -/
def doeSleepSeconds : DoeEvent → Option Nat
  | .sleepEv s => some s
  | _ => none

/-! ## Theorems -/

/-- A padded blob keeps the `%PDF` signature as its first 4 bytes. -/
lemma pdfBlob_take (n : Nat) : (pdfBlob n).take 4 = pdfMagic := by
  have h : pdfMagic.length = 4 := rfl
  rw [pdfBlob, ← h, List.take_left]

/-- Length of a padded blob. -/
lemma pdfBlob_length (n : Nat) : (pdfBlob n).length = 4 + (n - 4) := by
  simp [pdfBlob, pdfMagic]
  omega

/-- Claim C4: the PDF acceptance test of `download_via_fetch` accepts a
byte blob iff its first 4 bytes are the literal `%PDF` signature and its
size exceeds 1000 bytes; a 999-byte blob starting with `%PDF` is
rejected, a 1001-byte one accepted, and any blob not starting with
`%PDF` is rejected whatever its size. -/
theorem c4_validator_boundary :
    (∀ b : List Nat, gaoFetchAccept b = true ↔
        (b.take 4 = pdfMagic ∧ 1000 < b.length)) ∧
    gaoFetchAccept (pdfBlob 999) = false ∧
    gaoFetchAccept (pdfBlob 1001) = true ∧
    (∀ b : List Nat, b.take 4 ≠ pdfMagic → gaoFetchAccept b = false) := by
  refine ⟨?_, ?_, ?_, ?_⟩
  · intro b
    simp [gaoFetchAccept, is_valid_pdf]
  · norm_num [gaoFetchAccept, is_valid_pdf, pdfBlob_take, pdfBlob_length]
  · norm_num [gaoFetchAccept, is_valid_pdf, pdfBlob_take, pdfBlob_length]
  · intro b hb
    simp [gaoFetchAccept, is_valid_pdf, hb]

/-- Witness for C4: an all-zero 4-byte blob is rejected. -/
theorem c4_witness : gaoFetchAccept [0, 0, 0, 0] = false :=
  c4_validator_boundary.2.2.2 [0, 0, 0, 0] (by decide)

/-- Claim C10: when the tracking file exists but `json.load` fails,
`_load_tracking` returns the empty mapping, in which every URL is
unrecorded. -/
theorem c10_corrupt_tracking_empty (s : String)
    (parseJson : String → Option (List (String × Bool)))
    (h : parseJson s = none) :
    vaLoadTracking (some s) parseJson = [] ∧
    ∀ url : String, (vaLoadTracking (some s) parseJson).lookup url = none := by
  simp [vaLoadTracking, h]

/-- Witness for C10: a concrete corrupt tracking file loads as empty and
a concrete URL is then unrecorded. -/
theorem c10_witness :
    vaLoadTracking (some "not json") (fun _ => none) = [] ∧
    (vaLoadTracking (some "not json") (fun _ => none)).lookup
      "https://ex/a.pdf" = none :=
  ⟨(c10_corrupt_tracking_empty "not json" (fun _ => none) rfl).1,
    (c10_corrupt_tracking_empty "not json" (fun _ => none) rfl).2
      "https://ex/a.pdf"⟩

/-- Claim C2: when the URL already has a tracking record with the
success flag set, `download_single_pdf` returns True at once, with an
empty event trace (no strategy attempt, no sleep — zero network calls)
and no tracking write. -/
theorem c2_recorded_success_short_circuit (tracking : String → Option Bool)
    (fileSize : String → Option Nat) (pw : Nat → Bool) (curl : Bool)
    (info : PdfInfo) (h : tracking info.url = some true) :
    vaDownloadSinglePdf tracking fileSize pw curl info = ⟨true, [], []⟩ := by
  simp [vaDownloadSinglePdf, h]

/-- Witness for C2: concrete second call with a prior success record. -/
theorem c2_witness :
    vaDownloadSinglePdf (fun _ => some true) (fun _ => some 5000)
      (fun _ => false) false ⟨"https://ex/a.pdf", "a.pdf", "Cat"⟩ =
      ⟨true, [], []⟩ :=
  c2_recorded_success_short_circuit (fun _ => some true) (fun _ => some 5000)
    (fun _ => false) false ⟨"https://ex/a.pdf", "a.pdf", "Cat"⟩ rfl

/-- Counterexample to C3: a URL whose tracking record has the success
flag set is skipped (returns True with zero strategy attempts) even
though no file exists anywhere on disk (`fileSize` is `none` at every
path) — the deleted artifact does not stop the skip. -/
theorem c3_counterexample :
    vaDownloadSinglePdf (fun _ => some true) (fun _ => none)
      (fun _ => false) false ⟨"https://ex/d.pdf", "d.pdf", "Cat"⟩ =
      ⟨true, [], []⟩ := by
  decide

/-- Claim C3 as amended: the skip decision consults only the tracking
record — a record with the success flag set skips the URL regardless of
the disk; independently, when no such record exists but a file of more
than 1000 bytes already sits at the derived path, the URL is also
skipped, with a success record backfilled. -/
theorem c3_amended_skip_semantics :
    (∀ (tracking : String → Option Bool) (fileSize : String → Option Nat)
        (pw : Nat → Bool) (curl : Bool) (info : PdfInfo),
        tracking info.url = some true →
        vaDownloadSinglePdf tracking fileSize pw curl info = ⟨true, [], []⟩) ∧
    (∀ (tracking : String → Option Bool) (fileSize : String → Option Nat)
        (pw : Nat → Bool) (curl : Bool) (info : PdfInfo) (sz : Nat),
        tracking info.url ≠ some true →
        fileSize (vaFilepath info) = some sz → 1000 < sz →
        vaDownloadSinglePdf tracking fileSize pw curl info =
          ⟨true, [], [true]⟩) := by
  constructor
  · intro tracking fileSize pw curl info h
    simp [vaDownloadSinglePdf, h]
  · intro tracking fileSize pw curl info sz h hf hsz
    simp [vaDownloadSinglePdf, h, hf, hsz]

/-- Witness for the amended C3: both skip branches at concrete inputs. -/
theorem c3_witness :
    vaDownloadSinglePdf (fun _ => some true) (fun _ => none)
      (fun _ => false) false ⟨"u", "d.pdf", "C"⟩ = ⟨true, [], []⟩ ∧
    vaDownloadSinglePdf (fun _ => none) (fun _ => some 2000)
      (fun _ => false) false ⟨"u", "d.pdf", "C"⟩ = ⟨true, [], [true]⟩ :=
  ⟨c3_amended_skip_semantics.1 (fun _ => some true) (fun _ => none)
      (fun _ => false) false ⟨"u", "d.pdf", "C"⟩ rfl,
    c3_amended_skip_semantics.2 (fun _ => none) (fun _ => some 2000)
      (fun _ => false) false ⟨"u", "d.pdf", "C"⟩ 2000 (by decide) rfl
      (by decide)⟩

/-- Claim C5: when every Playwright attempt and the final curl attempt
fail, `download_single_pdf` performs exactly the 3 configured rounds
(Playwright in rounds 0, 1, 2 and curl once in the last round), then
writes a failure record to the tracking store and returns False — the
full finite trace is computed, so the loop cannot run forever. -/
theorem c5_retry_cap (tracking : String → Option Bool)
    (fileSize : String → Option Nat) (pw : Nat → Bool) (curl : Bool)
    (info : PdfInfo) (hpw : ∀ r, pw r = false) (hc : curl = false)
    (ht : tracking info.url ≠ some true)
    (hf : fileSize (vaFilepath info) = none) :
    vaDownloadSinglePdf tracking fileSize pw curl info =
      ⟨false,
        [.pwAttempt 0, .sleepEv 3, .pwAttempt 1, .sleepEv 3,
          .pwAttempt 2, .curlAttempt 2, .sleepEv 3],
        [false]⟩ := by
  subst hc
  have hrange : List.range vaMaxRetries = [0, 1, 2] := rfl
  simp [vaDownloadSinglePdf, ht, hf, hrange, vaRetryLoop, hpw, vaMaxRetries]

/-- Witness for C5: a concrete run where all strategies always fail. -/
theorem c5_witness :
    vaDownloadSinglePdf (fun _ => none) (fun _ => none) (fun _ => false)
      false ⟨"https://ex/b.pdf", "b.pdf", "Cat"⟩ =
      ⟨false,
        [.pwAttempt 0, .sleepEv 3, .pwAttempt 1, .sleepEv 3,
          .pwAttempt 2, .curlAttempt 2, .sleepEv 3],
        [false]⟩ :=
  c5_retry_cap (fun _ => none) (fun _ => none) (fun _ => false) false
    ⟨"https://ex/b.pdf", "b.pdf", "Cat"⟩ (fun _ => rfl) rfl (by decide) rfl

/-- Counterexample to C1: in `gao-scrape.py`, when the first method (the
in-page fetch) fails transiently (`none`, e.g. an HTTP 5xx) while the
route-interception method would deliver a valid 1001-byte PDF, `acquire`
returns failure, the only method entered is the in-page fetch, and no
browser-download-event or direct-HTTP strategy is ever attempted — so
the claimed four-strategy priority order and the success-via-strategy-2
scenario both fail on the code. -/
theorem c1_counterexample :
    (downloadPdfProperly none (some (pdfBlob 1001)) none).ret = false ∧
    (downloadPdfProperly none (some (pdfBlob 1001)) none).methodsTried =
      [GaoMethod.fetchMethod] := by
  exact ⟨rfl, rfl⟩

/-- Claim C1 as amended: `download_pdf_properly` always returns the
in-page fetch method's own result and enters no other method (the route
and response fallbacks run only when method 1 raises, which its blanket
exception handler prevents); in `va-scrape.py, download_single_pdf`,
every round attempts Playwright first, curl is attempted only in the
final round after Playwright, and with Playwright always failing and
curl succeeding the call returns success with a success record — curl's
bytes. -/
theorem c1_amended_strategy_order :
    (∀ fetchResp routeResp respResp : Option (List Nat),
        (downloadPdfProperly fetchResp routeResp respResp).methodsTried =
          [GaoMethod.fetchMethod] ∧
        (downloadPdfProperly fetchResp routeResp respResp).ret =
          (match fetchResp with
            | none => false
            | some content => gaoFetchAccept content)) ∧
    (∀ (tracking : String → Option Bool) (fileSize : String → Option Nat)
        (pw : Nat → Bool) (info : PdfInfo),
        (∀ r, pw r = false) →
        tracking info.url ≠ some true →
        fileSize (vaFilepath info) = none →
        vaDownloadSinglePdf tracking fileSize pw true info =
          ⟨true,
            [.pwAttempt 0, .sleepEv 3, .pwAttempt 1, .sleepEv 3,
              .pwAttempt 2, .curlAttempt 2],
            [true]⟩) := by
  constructor
  · intro fetchResp routeResp respResp
    match fetchResp with
    | none => exact ⟨rfl, rfl⟩
    | some content =>
      constructor
      · simp only [downloadPdfProperly, downloadViaFetch]
        by_cases h : gaoFetchAccept content <;> simp [h]
      · simp only [downloadPdfProperly, downloadViaFetch]
        by_cases h : gaoFetchAccept content <;> simp [h]
  · intro tracking fileSize pw info hpw ht hf
    have hrange : List.range vaMaxRetries = [0, 1, 2] := rfl
    simp [vaDownloadSinglePdf, ht, hf, hrange, vaRetryLoop, hpw, vaMaxRetries]

/-- Witness for the amended C1: concrete gao and va runs. -/
theorem c1_witness :
    (downloadPdfProperly (some (pdfBlob 1001)) none none).methodsTried =
      [GaoMethod.fetchMethod] ∧
    vaDownloadSinglePdf (fun _ => none) (fun _ => none) (fun _ => false)
      true ⟨"https://ex/c.pdf", "c.pdf", "Cat"⟩ =
      ⟨true,
        [.pwAttempt 0, .sleepEv 3, .pwAttempt 1, .sleepEv 3,
          .pwAttempt 2, .curlAttempt 2],
        [true]⟩ :=
  ⟨(c1_amended_strategy_order.1 (some (pdfBlob 1001)) none none).1,
    c1_amended_strategy_order.2 (fun _ => none) (fun _ => none)
      (fun _ => false) ⟨"https://ex/c.pdf", "c.pdf", "Cat"⟩ (fun _ => rfl)
      (by decide) rfl⟩

/-- Counterexample to C6: in a successful `doe-scrape.py` download of the
two-chunk artifact `[1, 2]`, the final artifact path at one point holds
exactly `[1]` — a partially-written file resides at the final path
mid-write, which the claim says never happens. -/
theorem c6_counterexample :
    (doeDownloadDocument none (fun _ => some [[1], [2]])).ret = true ∧
    some [1] ∈ (doeDownloadDocument none (fun _ => some [[1], [2]])).fileHistory ∧
    some [1] ≠ some ([1, 2] : List Nat) := by
  decide

/-- Claim C6 as amended: artifact writes are not atomic — the bytes go
chunk-by-chunk directly to the final artifact path, so during a write the
final path holds each chunk-prefix of the artifact in turn; the write
ends with the complete bytes at that path, and when every attempt fails
the partial file is deleted so the run ends with no file there. -/
theorem c6_amended_direct_write :
    (∀ chunks : List (List Nat), ∀ s ∈ doeWriteStates chunks,
        ∃ i, s = some ((chunks.take i).flatten)) ∧
    (∀ chunks : List (List Nat),
        (doeWriteStates chunks).getLast? = some (some chunks.flatten)) ∧
    (∀ resp : Nat → Option (List (List Nat)), (∀ a, resp a = none) →
        (doeDownloadDocument none resp).fileHistory = [none] ∧
        (doeDownloadDocument none resp).ret = false) := by
  refine ⟨?_, ?_, ?_⟩
  · intro chunks s hs
    rcases List.mem_map.mp hs with ⟨i, _, hi⟩
    exact ⟨i, hi.symm⟩
  · intro chunks
    rw [doeWriteStates, List.getLast?_map, List.getLast?_range]
    simp
  · intro resp h
    simp [doeDownloadDocument, doeAttemptLoop, h, doeMaxRetries]

/-- Witness for the amended C6: the concrete two-chunk write ends with
the full artifact at the final path, and a concrete all-failing run ends
with no file there. -/
theorem c6_witness :
    (doeWriteStates [[1], [2]]).getLast? = some (some [1, 2]) ∧
    (doeDownloadDocument none (fun _ => none)).fileHistory = [none] :=
  ⟨by simpa using c6_amended_direct_write.2.1 [[1], [2]],
    (c6_amended_direct_write.2.2 (fun _ => none) (fun _ => rfl)).1⟩

/-- Counterexample to C8: in a `va-scrape.py` run where every strategy
always fails, the three inter-round sleeps are all 3 seconds — a
constant, not an exponentially growing base-2 backoff, and the delay
before round `n + 1` is not strictly larger than the one before round
`n`. -/
theorem c8_counterexample :
    ((vaDownloadSinglePdf (fun _ => none) (fun _ => none) (fun _ => false)
        false ⟨"u", "d.pdf", "C"⟩).events.filterMap vaSleepSeconds) =
      [3, 3, 3] ∧
    ¬ List.Chain' (· < ·) ([3, 3, 3] : List Nat) := by
  refine ⟨by decide, ?_⟩
  simp [List.chain'_cons]

/-- Claim C8 as amended: `doe-scrape.py` sleeps `2 ^ attempt` seconds
after each failed non-final attempt — 2s then 4s, strictly growing and
uncapped — while `va-scrape.py` sleeps a constant 3 seconds after every
failed round. -/
theorem c8_amended_backoff :
    (∀ resp : Nat → Option (List (List Nat)), (∀ a, resp a = none) →
        ((doeDownloadDocument none resp).events.filterMap doeSleepSeconds) =
          [2, 4] ∧
        List.Chain' (· < ·)
          ((doeDownloadDocument none resp).events.filterMap doeSleepSeconds)) ∧
    (∀ (tracking : String → Option Bool) (fileSize : String → Option Nat)
        (pw : Nat → Bool) (info : PdfInfo),
        (∀ r, pw r = false) →
        tracking info.url ≠ some true →
        fileSize (vaFilepath info) = none →
        ((vaDownloadSinglePdf tracking fileSize pw false info).events.filterMap
            vaSleepSeconds) = [3, 3, 3]) := by
  constructor
  · intro resp h
    have he : (doeDownloadDocument none resp).events =
        [.request 1, .sleepEv 2, .request 2, .sleepEv 4, .request 3] := by
      simp [doeDownloadDocument, doeAttemptLoop, h, doeMaxRetries]
    rw [he]
    have hfm : List.filterMap doeSleepSeconds
        [.request 1, .sleepEv 2, .request 2, .sleepEv 4, .request 3] =
        [2, 4] := rfl
    rw [hfm]
    exact ⟨rfl, by norm_num [List.chain'_cons]⟩
  · intro tracking fileSize pw info hpw ht hf
    have hrange : List.range vaMaxRetries = [0, 1, 2] := rfl
    simp [vaDownloadSinglePdf, ht, hf, hrange, vaRetryLoop, hpw, vaMaxRetries,
      vaSleepSeconds]

/-- Witness for the amended C8: concrete all-failing doe and va runs. -/
theorem c8_witness :
    ((doeDownloadDocument none (fun _ => none)).events.filterMap
        doeSleepSeconds) = [2, 4] ∧
    ((vaDownloadSinglePdf (fun _ => none) (fun _ => none) (fun _ => false)
        false ⟨"w", "w.pdf", "C"⟩).events.filterMap vaSleepSeconds) =
      [3, 3, 3] :=
  ⟨(c8_amended_backoff.1 (fun _ => none) (fun _ => rfl)).1,
    c8_amended_backoff.2 (fun _ => none) (fun _ => none) (fun _ => false)
      ⟨"w", "w.pdf", "C"⟩ (fun _ => rfl) (by decide) rfl⟩

/-- The counter of the duplicate-handling loop never decreases. -/
lemma dhaCounterLoop_counter_le (fs : List String) (stem ext : String) :
    ∀ (fuel : Nat) (p : String) (c : Nat),
      c ≤ (dhaCounterLoop fs stem ext fuel p c).2 := by
  intro fuel
  induction fuel with
  | zero => intro p c; exact Nat.le_refl c
  | succ n ih =>
    intro p c
    rw [dhaCounterLoop]
    by_cases h : fs.contains p = true
    · rw [if_pos h]
      exact Nat.le_trans (Nat.le_succ c) (ih _ (c + 1))
    · rw [if_neg h]

/-- Counterexample to C7: two consecutive `dha-scrape.py,
download_file_direct` calls for the same document (title `doc`,
extension `.pdf`) write two differently-named files — `doc.pdf` when the
folder is empty, then `doc_1.pdf` once `doc.pdf` exists — so repeated
calls do produce two differently-named files for the same logical
document. -/
theorem c7_counterexample :
    (dhaDownloadFileDirect [] "doc" ".pdf").path = "doc.pdf" ∧
    (dhaDownloadFileDirect ["doc.pdf"] "doc" ".pdf").path = "doc_1.pdf" ∧
    ("doc_1.pdf" : String) ≠ "doc.pdf" := by
  refine ⟨rfl, rfl, by decide⟩

/-- Claim C7 as amended: `va-scrape.py`'s filename derivation is a
deterministic pure function of the work item (it reads only the
`filename` field, and the output path only `filename` and `category`),
so two va runs on the same item derive the same path; but `dha-scrape.py,
download_file_direct` bumps the name with `_N` counters while the
derived path exists, so repeated calls for the same document produce
differently-named files (`doc.pdf`, then `doc_1.pdf`), and its
skip-if-exists branch never fires (the counter is at least 2 whenever
the original path exists). -/
theorem c7_amended_naming :
    (∀ a b : PdfInfo, a.filename = b.filename →
        vaGenerateFilename a = vaGenerateFilename b) ∧
    (∀ a b : PdfInfo, a.filename = b.filename → a.category = b.category →
        vaFilepath a = vaFilepath b) ∧
    (∀ (fs : List String) (title ext : String),
        (dhaDownloadFileDirect fs title ext).skipped = false) ∧
    (dhaDownloadFileDirect [] "doc" ".pdf").path = "doc.pdf" ∧
    (dhaDownloadFileDirect ["doc.pdf"] "doc" ".pdf").path = "doc_1.pdf" := by
  refine ⟨?_, ?_, ?_, rfl, rfl⟩
  · intro a b h
    simp [vaGenerateFilename, h]
  · intro a b h hc
    simp [vaFilepath, vaGenerateFilename, h, hc]
  · intro fs title ext
    show (let stem := dhaSanitizeFilename title
      let original := stem ++ ext
      let res := dhaCounterLoop fs stem ext (fs.length + 1) original 1
      if fs.contains original ∧ res.2 = 1 then (⟨true, res.1⟩ : DhaResult)
      else ⟨false, res.1⟩).skipped = false
    by_cases h : fs.contains (dhaSanitizeFilename title ++ ext)
    · have h2 : 2 ≤ (dhaCounterLoop fs (dhaSanitizeFilename title) ext
          (fs.length + 1) (dhaSanitizeFilename title ++ ext) 1).2 := by
        rw [dhaCounterLoop]
        simp only [h, if_true]
        exact dhaCounterLoop_counter_le fs (dhaSanitizeFilename title) ext
          fs.length _ 2
      have hne : ¬ (fs.contains (dhaSanitizeFilename title ++ ext) ∧
          (dhaCounterLoop fs (dhaSanitizeFilename title) ext
            (fs.length + 1) (dhaSanitizeFilename title ++ ext) 1).2 = 1) := by
        rintro ⟨-, hc1⟩
        omega
      simp only [hne, if_false]
    · have hne : ¬ (fs.contains (dhaSanitizeFilename title ++ ext) ∧
          (dhaCounterLoop fs (dhaSanitizeFilename title) ext
            (fs.length + 1) (dhaSanitizeFilename title ++ ext) 1).2 = 1) := by
        rintro ⟨hc, -⟩
        exact h hc
      simp only [hne, if_false]

/-- Witness for the amended C7: deterministic va derivation at a
concrete pair, and the concrete dha runs. -/
theorem c7_witness :
    vaGenerateFilename ⟨"https://a", "VA_Directive_1000", "Cat"⟩ =
      vaGenerateFilename ⟨"https://b", "VA_Directive_1000", "Other"⟩ ∧
    (dhaDownloadFileDirect ["x.pdf"] "report" ".pdf").skipped = false :=
  ⟨c7_amended_naming.1 ⟨"https://a", "VA_Directive_1000", "Cat"⟩
      ⟨"https://b", "VA_Directive_1000", "Other"⟩ rfl,
    c7_amended_naming.2.2.1 ["x.pdf"] "report" ".pdf"⟩

/-- Every page processed by the breadth-first crawl has depth at most
`maxDepth`: items deeper than the cap are skipped at pop time. -/
lemma webScrapeAux_depth_le (n : Nat) (getLinks : Fin n → List (Fin n))
    (content : Fin n → Bool) (maxDepth : Nat) :
    ∀ (visited : Finset (Fin n)) (queue : List (Fin n × Nat)),
      ∀ p ∈ webScrapeAux n getLinks content maxDepth visited queue,
        p.2 ≤ maxDepth := by
  intro visited queue
  induction visited, queue using webScrapeAux.induct n getLinks content maxDepth with
  | case1 visited => intro p hp; simp [webScrapeAux] at hp
  | case2 visited u d rest h ih =>
    intro p hp
    rw [webScrapeAux] at hp
    rw [dif_pos h] at hp
    exact ih p hp
  | case3 visited u d rest h next ih =>
    intro p hp
    rw [webScrapeAux] at hp
    rw [dif_neg h] at hp
    rcases List.mem_cons.mp hp with hp | hp
    · subst hp
      exact Nat.le_of_not_lt (fun hlt => h (Or.inr hlt))
    · exact ih p hp

/-- Claim C9: the `dol-scrape.py` pagination loop processes exactly the
configured page range — `endPage + 1 - startPage` listing pages —
whatever the extractor returns on each page; and every page the
`web-scrape.py` breadth-first crawl processes has depth at most the
configured `max_depth` (the crawl itself is a total function, so it
terminates on every extractor). -/
theorem c9_pagination_and_depth_bounds :
    (∀ (extract : Nat → List String) (startPage endPage : Nat),
        (dolRun extract startPage endPage).pages.length =
          endPage + 1 - startPage) ∧
    (∀ (n : Nat) (getLinks : Fin n → List (Fin n)) (content : Fin n → Bool)
        (maxDepth : Nat) (seed : Fin n),
        ∀ p ∈ webScrape n getLinks content maxDepth seed,
          p.2 ≤ maxDepth) := by
  constructor
  · intro extract startPage endPage
    simp [dolRun]
  · intro n getLinks content maxDepth seed p hp
    exact webScrapeAux_depth_le n getLinks content maxDepth ∅ [(seed, 0)] p hp

/-- Witness for C9: a 5-page dol range with an extractor that always
yields another advisory, and a 1-page site whose extractor always
reports a further link with depth cap 0. -/
theorem c9_witness :
    (dolRun (fun _ => ["adv"]) 0 4).pages.length = 5 ∧
    ((0 : Fin 1), 0).2 ≤ 0 := by
  constructor
  · simpa using c9_pagination_and_depth_bounds.1 (fun _ => ["adv"]) 0 4
  · have hmem : ((0 : Fin 1), 0) ∈
        webScrape 1 (fun _ => [0]) (fun _ => true) 0 0 := by
      rw [webScrape, webScrapeAux]
      simp [webScrapeAux]
    exact c9_pagination_and_depth_bounds.2 1 (fun _ => [0]) (fun _ => true)
      0 0 ((0 : Fin 1), 0) hmem

end GovPdf
